import Mathlib

/-
Shallow embedding of `src/translate2.py`, a Streamlit chat-style translator
with Firebase e-mail/password authentication and a Gemini translation call.

External services (the Firebase REST endpoints and the Gemini model) are
modelled by an explicit outcome value passed to each handler: `HttpResult`
for an auth call, `Except String String` for a model call (error = the
exception message, ok = `response.text`).  Streamlit session state is the
record `SessionState`; a session-state key that may be absent
(`st.session_state.messages`) is an `Option`.  An exception escaping a
Python function unhandled is `Except.error` at the Lean level.
-/

namespace Translate2

/-- The `role` field of a chat message dict: `"user"` or `"assistant"`. -/
inductive Role where
  | user
  | assistant
deriving Repr, DecidableEq

/-- One entry of `st.session_state.messages`: a dict with keys `role`,
`content`, and (on user turns only) `source_lang` and `target_lang`. -/
structure ChatTurn where
  role : Role
  content : String
  source_lang : Option String := none
  target_lang : Option String := none
deriving Repr, DecidableEq

/-- The JSON body Firebase returns on a successful signUp/signInWithPassword
call; the code stores `response.json()` as `st.session_state.user_info`. -/
structure UserAccount where
  email : String
  idToken : String
  localId : String
deriving Repr, DecidableEq

/-- The per-session mutable state kept in `st.session_state`.
`messages = none` models the key `"messages"` being absent. -/
structure SessionState where
  logged_in : Bool
  user_info : Option UserAccount
  messages : Option (List ChatTurn)
deriving Repr, DecidableEq

/-- State after the initialization at lines 97-100: `logged_in = False`,
`user_info = None`; the `"messages"` key is not created there. -/
def initialState : SessionState :=
  { logged_in := false, user_info := none, messages := none }

/-- Outcome of one `requests.post` to a Firebase auth endpoint.
`httpError` carries the HTTP status, the string of the `HTTPError` raised by
`raise_for_status`, and the optional `error.message` field of the JSON body.
`transportError` is a `RequestException` raised by `requests.post` itself,
so no `response` object exists. -/
inductive HttpResult where
  | success (account : UserAccount)
  | httpError (status : Nat) (excStr : String) (bodyMessage : Option String)
  | transportError (excStr : String)
deriving Repr, DecidableEq

/-- The Python exception raised when the `except` block of
`signup_user`/`login_user` reads `response.status_code` while `response`
was never assigned (transport failure case). -/
def unboundLocalResponse : String :=
  "UnboundLocalError: cannot access local variable response where it is not associated with a value"

/-- `signup_user` (lines 39-52).  Returns the parsed JSON on success and
`None` after displaying errors on an HTTP error response; on a transport
failure the `except` block itself raises `UnboundLocalError` (modelled as
`Except.error`), after `st.error` has shown the failure message.  The second
component is the list of messages displayed via `st.error`. -/
def signup_user : HttpResult → Except String (Option UserAccount) × List String
  | .success acct => (.ok (some acct), [])
  | .httpError status exc body =>
      (.ok none,
        ["Signup failed: " ++ exc] ++
          (if status = 400 then
            ["Error: " ++ body.getD "Unknown Firebase error"]
          else []))
  | .transportError exc =>
      (.error unboundLocalResponse, ["Signup failed: " ++ exc])

/-- `login_user` (lines 54-67): same shape as `signup_user` against the
signInWithPassword endpoint, with its own display strings. -/
def login_user : HttpResult → Except String (Option UserAccount) × List String
  | .success acct => (.ok (some acct), [])
  | .httpError status exc body =>
      (.ok none,
        ["Login failed: " ++ exc] ++
          (if status = 400 then
            ["Error: " ++ body.getD "Invalid credentials or Firebase error"]
          else []))
  | .transportError exc =>
      (.error unboundLocalResponse, ["Login failed: " ++ exc])

/-- `logout_user` (lines 69-73): resets the login flag and user info and
sets `messages` to an existing empty list (the key stays present). -/
def logout_user (s : SessionState) : SessionState :=
  { s with logged_in := false, user_info := none, messages := some [] }

/-- The greeting appended at lines 113-115 when the `"messages"` key is
absent. -/
def greetingTurn : ChatTurn :=
  { role := .assistant
    content := "Hello! I\x27m your AI translator. Select languages and type to translate." }

/-- Lines 113-115: create the transcript with the greeting only when the
`"messages"` key does not exist yet. -/
def initMessages (s : SessionState) : SessionState :=
  match s.messages with
  | none => { s with messages := some [greetingTurn] }
  | some _ => s

/-- The prompt built at line 153. -/
def translation_prompt (source_language target_language prompt : String) : String :=
  "Translate the following " ++ source_language ++ " text to " ++ target_language ++
    ": \"" ++ prompt ++ "\""

/-- The user turn appended at lines 139-144. -/
def userTurn (prompt source_language target_language : String) : ChatTurn :=
  { role := .user
    content := prompt
    source_lang := some source_language
    target_lang := some target_language }

/-- `error_message` built at line 165 from the caught exception. -/
def translationErrorMessage (e : String) : String :=
  "An error occurred during translation: " ++ e

/-- The chat-input handler (lines 137-168) acting on the transcript list:
append the user turn, then on success append an assistant turn holding
`response.text` verbatim, on failure append an assistant turn holding the
formatted error string. -/
def submitText (messages : List ChatTurn) (prompt source_language target_language : String)
    (modelResult : Except String String) : List ChatTurn :=
  let messages := messages ++ [userTurn prompt source_language target_language]
  match modelResult with
  | .ok translated_text => messages ++ [{ role := .assistant, content := translated_text }]
  | .error e => messages ++ [{ role := .assistant, content := "Error: " ++ translationErrorMessage e }]

/-- The chat-input handler at the session-state level.  It runs only in the
authenticated branch, after lines 113-115 have ensured the `"messages"` key
exists, so the `getD []` default is never taken in a reachable state. -/
def chatSubmit (s : SessionState) (prompt source_language target_language : String)
    (modelResult : Except String String) : SessionState :=
  { s with
    messages := some (submitText (s.messages.getD []) prompt source_language target_language
      modelResult) }

/-- The turn installed by the Clear Chat handler (line 175). -/
def clearedTurn : ChatTurn :=
  { role := .assistant, content := "Chat cleared! How can I help you now?" }

/-- The Clear Chat button handler (lines 173-176): reset `messages` to the
empty list and append the fresh assistant greeting. -/
def clearChat (s : SessionState) : SessionState :=
  { s with messages := some [clearedTurn] }

/-- The login form handler (lines 195-204).  Result: the new session state
and the list of displayed notices, or `Except.error` when `login_user`
raises.  Empty e-mail or password short-circuits with a warning (Python
truthiness of the two strings). -/
def loginSubmit (s : SessionState) (login_email login_password : String) (resp : HttpResult) :
    Except String (SessionState × List String) :=
  if login_email ≠ "" ∧ login_password ≠ "" then
    match login_user resp with
    | (.error exc, _shown) => .error exc
    | (.ok none, shown) => .ok (s, shown)
    | (.ok (some user_data), shown) =>
        .ok ({ s with logged_in := true, user_info := some user_data },
          shown ++ ["Logged in successfully!"])
  else
    .ok (s, ["Please enter both email and password."])

/-- The register form handler (lines 214-231).  The `Nat` component counts
the network calls made to the signUp endpoint.  Validation order follows
the source: all fields non-empty, then password = confirmation, then
length ≥ 6; only then is `signup_user` called.  The handler never mutates
the session state (the auto-login lines 223-225 are commented out). -/
def registerSubmit (s : SessionState)
    (register_email register_password confirm_password : String) (resp : HttpResult) :
    Except String (SessionState × Nat × List String) :=
  if register_email ≠ "" ∧ register_password ≠ "" ∧ confirm_password ≠ "" then
    if register_password = confirm_password then
      if 6 ≤ register_password.length then
        match signup_user resp with
        | (.error exc, _shown) => .error exc
        | (.ok none, shown) => .ok (s, 1, shown)
        | (.ok (some _user_data), shown) =>
            .ok (s, 1, shown ++ ["Registration successful! You can now log in."])
      else .ok (s, 0, ["Password must be at least 6 characters long."])
    else .ok (s, 0, ["Passwords do not match."])
  else .ok (s, 0, ["Please fill in all fields."])

/-- The error taxonomy of the specification. -/
inductive AuthErrorKind where
  | ProviderRejected
  | NetworkFailure
deriving Repr, DecidableEq

/-- Modelled from the spec (sections 4.1 and 7): the kind of `AuthError` an
auth-call outcome corresponds to.  `ProviderRejected` covers a 4xx response
with an error body; `NetworkFailure` covers transport failures. -/
def specAuthErrorKind : HttpResult → Option AuthErrorKind
  | .success _ => none
  | .httpError status _ _ =>
      if 400 ≤ status ∧ status ≤ 499 then some .ProviderRejected
      else some .NetworkFailure
  | .transportError _ => some .NetworkFailure

/-- One text submission: the typed prompt, the selected languages, and the
outcome of the model call. -/
structure Submission where
  prompt : String
  source_language : String
  target_language : String
  modelResult : Except String String

/-- A sequence of text submissions folded over the transcript. -/
def runSubmissions (messages : List ChatTurn) (subs : List Submission) : List ChatTurn :=
  subs.foldl
    (fun m sub => submitText m sub.prompt sub.source_language sub.target_language sub.modelResult)
    messages

/-- Sample assistant turn used to build concrete states for witnesses. -/
def turnA : ChatTurn := { role := .assistant, content := "hi" }

/-- Sample authenticated state with a one-turn transcript, for witnesses. -/
def stateA : SessionState :=
  { logged_in := true, user_info := none, messages := some [turnA] }

/-- Sample provider account record, for witnesses. -/
def acctA : UserAccount :=
  { email := "u@example.com", idToken := "token123", localId := "local456" }

theorem submitText_eq (m : List ChatTurn) (p s t : String) (r : Except String String) :
    ∃ a : ChatTurn, a.role = .assistant ∧ submitText m p s t r = m ++ [userTurn p s t, a] := by
  cases r with
  | ok v =>
    exact ⟨{ role := .assistant, content := v }, rfl, by simp [submitText]⟩
  | error e =>
    exact ⟨{ role := .assistant, content := "Error: " ++ translationErrorMessage e }, rfl,
      by simp [submitText]⟩

theorem runSubmissions_eq (m : List ChatTurn) (subs : List Submission) :
    ∃ rest : List ChatTurn,
      runSubmissions m subs = m ++ rest ∧ rest.length = 2 * subs.length := by
  induction subs generalizing m with
  | nil => exact ⟨[], by simp [runSubmissions], rfl⟩
  | cons sub subs ih =>
    obtain ⟨a, _ha, hs⟩ :=
      submitText_eq m sub.prompt sub.source_language sub.target_language sub.modelResult
    obtain ⟨rest, hr, hl⟩ :=
      ih (m ++ [userTurn sub.prompt sub.source_language sub.target_language, a])
    refine ⟨[userTurn sub.prompt sub.source_language sub.target_language, a] ++ rest, ?_, ?_⟩
    · have step : runSubmissions m (sub :: subs) =
        runSubmissions
          (submitText m sub.prompt sub.source_language sub.target_language sub.modelResult)
          subs := rfl
      rw [step, hs, hr, List.append_assoc]
    · simp only [List.length_append, List.length_cons, List.length_nil, hl]
      omega

/-- Claim C1: the transcript is strictly append-only.  For every sequence of
N text submissions, the transcript length afterwards equals the length
before plus 2N, every previously existing entry (all its fields) is
unchanged, and each submission appends exactly one user turn followed by
one assistant turn. -/
theorem c1_transcript_append_only (m : List ChatTurn) (subs : List Submission) :
    (runSubmissions m subs).length = m.length + 2 * subs.length ∧
    (runSubmissions m subs).take m.length = m ∧
    ∀ msgs p src tgt r, ∃ a : ChatTurn,
      (userTurn p src tgt).role = .user ∧ a.role = .assistant ∧
      submitText msgs p src tgt r = msgs ++ [userTurn p src tgt, a] := by
  obtain ⟨rest, hr, hl⟩ := runSubmissions_eq m subs
  refine ⟨?_, ?_, ?_⟩
  · rw [hr]
    simp [hl]
  · rw [hr]
    exact List.take_left m rest
  · intro msgs p src tgt r
    obtain ⟨a, ha, hs⟩ := submitText_eq msgs p src tgt r
    exact ⟨a, rfl, ha, hs⟩

/-- Claim C2: a failed translation call appends an assistant turn whose
content contains the failure message, the just-appended user turn is not
rolled back, and the login flag is unchanged. -/
theorem c2_translation_failure_recorded (s : SessionState) (m : List ChatTurn)
    (prompt src tgt e : String) (hm : s.messages = some m) :
    (chatSubmit s prompt src tgt (.error e)).logged_in = s.logged_in ∧
    (chatSubmit s prompt src tgt (.error e)).messages =
      some (m ++ [userTurn prompt src tgt,
        { role := .assistant, content := "Error: " ++ translationErrorMessage e }]) ∧
    ∃ pre, "Error: " ++ translationErrorMessage e = pre ++ e := by
  refine ⟨rfl, ?_, ?_⟩
  · simp [chatSubmit, submitText, hm]
  · exact ⟨"Error: " ++ "An error occurred during translation: ",
      (String.append_assoc _ _ _).symm⟩

/-- Witness for C2 at a concrete state and failure message. -/
theorem c2_translation_failure_recorded_witness :
    stateA.messages = some [turnA] ∧
    ((chatSubmit stateA "Hello" "English" "Spanish" (.error "quota exceeded")).logged_in =
        stateA.logged_in ∧
      (chatSubmit stateA "Hello" "English" "Spanish" (.error "quota exceeded")).messages =
        some ([turnA] ++ [userTurn "Hello" "English" "Spanish",
          { role := .assistant,
            content := "Error: " ++ translationErrorMessage "quota exceeded" }]) ∧
      ∃ pre, "Error: " ++ translationErrorMessage "quota exceeded" = pre ++ "quota exceeded") :=
  ⟨rfl, c2_translation_failure_recorded stateA [turnA] "Hello" "English" "Spanish"
    "quota exceeded" rfl⟩

/-- Claim C3: the prompt embeds the literal text and both language names in
one instruction string, and on success the appended assistant turn holds
the model response verbatim, right after the user turn carrying the text
and the selected language pair. -/
theorem c3_translation_success_verbatim (s : SessionState) (m : List ChatTurn)
    (text src tgt resp : String) (hm : s.messages = some m) :
    (∃ p1 p2 p3 p4, translation_prompt src tgt text =
      p1 ++ src ++ p2 ++ tgt ++ p3 ++ text ++ p4) ∧
    (chatSubmit s text src tgt (.ok resp)).messages =
      some (m ++ [userTurn text src tgt, { role := .assistant, content := resp }]) := by
  refine ⟨⟨"Translate the following ", " text to ", ": \"", "\"", rfl⟩, ?_⟩
  simp [chatSubmit, submitText, hm]

/-- Witness for C3: the Hello/English/Spanish/Hola scenario of the spec. -/
theorem c3_translation_success_verbatim_witness :
    stateA.messages = some [turnA] ∧
    ((∃ p1 p2 p3 p4, translation_prompt "English" "Spanish" "Hello" =
        p1 ++ "English" ++ p2 ++ "Spanish" ++ p3 ++ "Hello" ++ p4) ∧
      (chatSubmit stateA "Hello" "English" "Spanish" (.ok "Hola")).messages =
        some ([turnA] ++ [userTurn "Hello" "English" "Spanish",
          { role := .assistant, content := "Hola" }])) :=
  ⟨rfl, c3_translation_success_verbatim stateA [turnA] "Hello" "English" "Spanish" "Hola" rfl⟩

/-- Claim C4: logout resets the login flag, the account record and the
transcript unconditionally, and is idempotent. -/
theorem c4_logout_resets (s : SessionState) :
    (logout_user s).logged_in = false ∧ (logout_user s).user_info = none ∧
    (logout_user s).messages = some [] ∧
    logout_user (logout_user s) = logout_user s :=
  ⟨rfl, rfl, rfl, rfl⟩

/-- Claim C5: Clear Chat replaces any non-empty transcript with exactly one
turn, an assistant greeting turn. -/
theorem c5_clear_chat_single_greeting (s : SessionState) (m : List ChatTurn)
    (_hm : s.messages = some m) (_hk : 0 < m.length) :
    (clearChat s).messages = some [clearedTurn] ∧
    clearedTurn.role = .assistant ∧
    clearedTurn.content = "Chat cleared! How can I help you now?" :=
  ⟨rfl, rfl, rfl⟩

/-- Witness for C5 at a concrete one-turn transcript. -/
theorem c5_clear_chat_single_greeting_witness :
    stateA.messages = some [turnA] ∧ 0 < ([turnA] : List ChatTurn).length ∧
    ((clearChat stateA).messages = some [clearedTurn] ∧
      clearedTurn.role = .assistant ∧
      clearedTurn.content = "Chat cleared! How can I help you now?") :=
  ⟨rfl, by decide, c5_clear_chat_single_greeting stateA [turnA] rfl (by decide)⟩

/-- Claim C6: a registration submission with mismatched passwords, a
password shorter than 6 characters, or an empty field makes zero sign-up
network calls and shows a single validation message, leaving the state
unchanged. -/
theorem c6_invalid_registration_no_network (s : SessionState)
    (email pw confirm : String) (resp : HttpResult)
    (h : pw ≠ confirm ∨ pw.length < 6 ∨ email = "" ∨ pw = "" ∨ confirm = "") :
    ∃ msg, registerSubmit s email pw confirm resp = .ok (s, 0, [msg]) := by
  by_cases hf : email ≠ "" ∧ pw ≠ "" ∧ confirm ≠ ""
  · by_cases hpc : pw = confirm
    · have hlen : pw.length < 6 := by
        rcases h with h | h | h | h | h
        · exact absurd hpc h
        · exact h
        · exact absurd h hf.1
        · exact absurd h hf.2.1
        · exact absurd h hf.2.2
      subst hpc
      exact ⟨"Password must be at least 6 characters long.",
        by simp [registerSubmit, hf, Nat.not_le.mpr hlen]⟩
    · exact ⟨"Passwords do not match.", by simp [registerSubmit, hf, hpc]⟩
  · exact ⟨"Please fill in all fields.", by simp [registerSubmit, hf]⟩

/-- Witness for C6: mismatched password and confirmation. -/
theorem c6_invalid_registration_no_network_witness :
    (("abc123" : String) ≠ "abc124" ∨ ("abc123" : String).length < 6 ∨
      ("u@example.com" : String) = "" ∨ ("abc123" : String) = "" ∨
      ("abc124" : String) = "") ∧
    ∃ msg, registerSubmit initialState "u@example.com" "abc123" "abc124"
      (.httpError 400 "exc" none) = .ok (initialState, 0, [msg]) :=
  ⟨Or.inl (by decide),
    c6_invalid_registration_no_network initialState "u@example.com" "abc123" "abc124"
      (.httpError 400 "exc" none) (Or.inl (by decide))⟩

/-- Claim C7: a provider-rejected login (HTTP 400) corresponds to an
AuthError of kind ProviderRejected in the spec taxonomy, shows the inline
error messages, and returns the session state completely unchanged. -/
theorem c7_provider_rejected_login (s : SessionState) (email pw exc : String)
    (body : Option String) (he : email ≠ "") (hp : pw ≠ "") :
    specAuthErrorKind (.httpError 400 exc body) = some .ProviderRejected ∧
    loginSubmit s email pw (.httpError 400 exc body) =
      .ok (s, ["Login failed: " ++ exc,
        "Error: " ++ body.getD "Invalid credentials or Firebase error"]) := by
  constructor
  · simp [specAuthErrorKind]
  · simp [loginSubmit, login_user, he, hp]

/-- Witness for C7 at concrete credentials and a 400 response. -/
theorem c7_provider_rejected_login_witness :
    ("u@example.com" : String) ≠ "" ∧ ("wrongpass" : String) ≠ "" ∧
    (specAuthErrorKind (.httpError 400 "400 Client Error" (some "INVALID_PASSWORD")) =
        some .ProviderRejected ∧
      loginSubmit stateA "u@example.com" "wrongpass"
          (.httpError 400 "400 Client Error" (some "INVALID_PASSWORD")) =
        .ok (stateA, ["Login failed: " ++ "400 Client Error",
          "Error: " ++ (some "INVALID_PASSWORD").getD "Invalid credentials or Firebase error"])) :=
  ⟨by decide, by decide,
    c7_provider_rejected_login stateA "u@example.com" "wrongpass" "400 Client Error"
      (some "INVALID_PASSWORD") (by decide) (by decide)⟩

/-- Claim C8 evaluation: on a transport-level failure (no response object),
both auth functions show the failure message but then raise an unhandled
exception (`UnboundLocalError` from reading the never-assigned `response`),
instead of returning an error value as the spec requires. -/
theorem c8_transport_failure_escapes :
    signup_user (.transportError "ConnectionError: connection refused") =
      (.error unboundLocalResponse,
        ["Signup failed: " ++ "ConnectionError: connection refused"]) ∧
    login_user (.transportError "ConnectionError: connection refused") =
      (.error unboundLocalResponse,
        ["Login failed: " ++ "ConnectionError: connection refused"]) :=
  ⟨rfl, rfl⟩

/-- Claim C9: a successful sign-up shows the success notice, makes exactly
one network call, and returns the session state unchanged: registration
never authenticates the user or stores an account. -/
theorem c9_registration_no_autologin (s : SessionState) (email pw : String)
    (acct : UserAccount) (he : email ≠ "") (hlen : 6 ≤ pw.length) :
    registerSubmit s email pw pw (.success acct) =
      .ok (s, 1, ["Registration successful! You can now log in."]) := by
  have hp : pw ≠ "" := by
    intro hempty
    rw [hempty] at hlen
    exact absurd hlen (by decide)
  simp [registerSubmit, signup_user, he, hp, hlen]

/-- Witness for C9 at concrete registration data. -/
theorem c9_registration_no_autologin_witness :
    ("u@example.com" : String) ≠ "" ∧ 6 ≤ ("secret1" : String).length ∧
    registerSubmit initialState "u@example.com" "secret1" "secret1" (.success acctA) =
      .ok (initialState, 1, ["Registration successful! You can now log in."]) :=
  ⟨by decide, by decide,
    c9_registration_no_autologin initialState "u@example.com" "secret1" acctA
      (by decide) (by decide)⟩

/-- Claim C10: the greeting is appended only when the `"messages"` key is
absent: the first successful login of a session yields a transcript of
exactly the greeting turn, while after a logout (which leaves an existing
empty list) a successful re-login yields an empty transcript with no
greeting. -/
theorem c10_greeting_only_on_fresh_session (s : SessionState) (email pw : String)
    (acct : UserAccount) (he : email ≠ "") (hp : pw ≠ "") :
    (∃ s1 shown1, loginSubmit initialState email pw (.success acct) = .ok (s1, shown1) ∧
      s1.messages = none ∧ (initMessages s1).messages = some [greetingTurn]) ∧
    (∃ s2 shown2, loginSubmit (logout_user s) email pw (.success acct) = .ok (s2, shown2) ∧
      s2.messages = some [] ∧ (initMessages s2).messages = some []) := by
  constructor
  · exact ⟨{ logged_in := true, user_info := some acct, messages := none },
      ["Logged in successfully!"],
      by simp [loginSubmit, login_user, he, hp, initialState], rfl, rfl⟩
  · exact ⟨{ logged_in := true, user_info := some acct, messages := some [] },
      ["Logged in successfully!"],
      by simp [loginSubmit, login_user, logout_user, he, hp], rfl, rfl⟩

/-- Witness for C10 at concrete credentials and a prior state. -/
theorem c10_greeting_only_on_fresh_session_witness :
    ("u@example.com" : String) ≠ "" ∧ ("secret1" : String) ≠ "" ∧
    ((∃ s1 shown1, loginSubmit initialState "u@example.com" "secret1" (.success acctA) =
        .ok (s1, shown1) ∧
      s1.messages = none ∧ (initMessages s1).messages = some [greetingTurn]) ∧
    (∃ s2 shown2, loginSubmit (logout_user stateA) "u@example.com" "secret1" (.success acctA) =
        .ok (s2, shown2) ∧
      s2.messages = some [] ∧ (initMessages s2).messages = some [])) :=
  ⟨by decide, by decide,
    c10_greeting_only_on_fresh_session stateA "u@example.com" "secret1" acctA
      (by decide) (by decide)⟩

end Translate2


